import Mathlib

/-!
Verification of the forecast pipeline in `src/app.py` (monthly sales
forecast dashboard with cascading filters).

The script is a pandas program.  We embed its dataframe operations
shallowly:

* a dataframe row becomes a `Record`; the categorical columns
  PAIS / CLIENTE / PRODUCTO are `Option String` (pandas admits NaN in
  object columns) and the FECHA column is `Option Fecha` (pandas admits
  NaT in a datetime column — e.g. an empty cell read through
  `parse_dates`);
* `TOTAL VENDIDO` is modelled as a rational number (exact arithmetic
  standing for the numeric column);
* `sorted(col.dropna().unique())` becomes `sortedUnique`;
* `df[col.isin(sel)]` becomes a `List.filter` with `isinOpt` (NaN is
  never a member of a selection list, so a null field fails `isin`);
* `groupby` drops rows whose group key is NaN (pandas default
  `dropna=True`), which here means rows with `fecha = none` are absent
  from `ventas_mensuales_agrupadas`;
* `Series.max()` of an empty series is NaN; feeding the resulting NaN
  year into `pd.date_range` raises a `ValueError`, so the forecast
  construction is modelled as an `Option`, `none` standing for that
  abort.
-/

namespace Pronostico2026

/-- A calendar date as pandas exposes it (we only need year/month/day). -/
structure Fecha where
  year : Int
  month : Nat
  day : Nat
deriving DecidableEq, Repr

/-- Chronological comparison of dates, lexicographic on (year, month, day). -/
def Fecha.before (a b : Fecha) : Bool :=
  a.year < b.year ||
    (a.year == b.year && (a.month < b.month ||
      (a.month == b.month && a.day < b.day)))

/-- One row of the loaded dataframe: columns PAIS, CLIENTE, PRODUCTO,
FECHA, TOTAL VENDIDO.  Categorical cells and the date cell may be
null (NaN / NaT). -/
structure Record where
  pais : Option String
  cliente : Option String
  producto : Option String
  fecha : Option Fecha
  total : ℚ
deriving DecidableEq, Repr

/-- Derived column `df['Mes'] = df['FECHA'].dt.month` (NaN when FECHA is NaT). -/
def Record.mes (r : Record) : Option Nat := r.fecha.map Fecha.month

/-- Derived column `df['Año'] = df['FECHA'].dt.year` (NaN when FECHA is NaT). -/
def Record.anio (r : Record) : Option Int := r.fecha.map Fecha.year

/-- A row after the preprocessing step: the original columns plus the
cached derived columns `Mes` and `Año`. -/
structure RecordExt where
  base : Record
  mes : Option Nat
  anio : Option Int
deriving DecidableEq, Repr

/-- Preprocessing (lines 34–35): add the `Mes` and `Año` columns to every
row.  Pandas column assignment touches no existing column. -/
def derivar (df : List Record) : List RecordExt :=
  df.map (fun r => { base := r, mes := r.mes, anio := r.anio })

/-- `sorted(series.dropna().unique())`: the distinct non-null values,
sorted lexicographically. -/
def sortedUnique (l : List (Option String)) : List String :=
  List.insertionSort (· ≤ ·) (l.filterMap id).dedup

/-- `series.isin(sel)` for one cell: a null cell is never a member. -/
def isinOpt (v : Option String) (sel : List String) : Bool :=
  match v with
  | some s => sel.contains s
  | none => false

/-- Line 44: `todos_paises = sorted(df['PAIS'].dropna().unique())` —
computed from the full dataframe, before any selection is read. -/
def todos_paises (df : List Record) : List String :=
  sortedUnique (df.map Record.pais)

/-- Lines 54–57: the dataframe used to enumerate clients — the rows
passing the country selection, or all rows when no country is selected. -/
def df_filtrado_pais (df : List Record) (sel_paises : List String) : List Record :=
  if sel_paises.isEmpty then df
  else df.filter (fun r => isinOpt r.pais sel_paises)

/-- Line 60: `clientes_disponibles = sorted(df_filtrado_pais['CLIENTE'].dropna().unique())`. -/
def clientes_disponibles (df : List Record) (sel_paises : List String) : List String :=
  sortedUnique ((df_filtrado_pais df sel_paises).map Record.cliente)

/-- Lines 70–73: the dataframe used to enumerate products — rows passing
the country and client selections. -/
def df_filtrado_cliente (df : List Record) (sel_paises sel_clientes : List String) :
    List Record :=
  if sel_clientes.isEmpty then df_filtrado_pais df sel_paises
  else (df_filtrado_pais df sel_paises).filter (fun r => isinOpt r.cliente sel_clientes)

/-- Line 76: `productos_disponibles = sorted(df_filtrado_cliente['PRODUCTO'].dropna().unique())`. -/
def productos_disponibles (df : List Record) (sel_paises sel_clientes : List String) :
    List String :=
  sortedUnique ((df_filtrado_cliente df sel_paises sel_clientes).map Record.producto)

/-- The three option lists, as the script computes them in one pass while
all three current selections are in scope (sections 4.1–4.3 of the
script).  The product selection is never read when building options. -/
def opciones (df : List Record) (sel_paises sel_clientes _sel_productos : List String) :
    List String × List String × List String :=
  (todos_paises df,
   clientes_disponibles df sel_paises,
   productos_disponibles df sel_paises sel_clientes)

/-- Lines 86–98 (Filter Applicator): starting from `df.copy()`, apply each
dimension's `isin` filter only when that selection is non-empty. -/
def df_filtrado (df : List Record) (sel_paises sel_clientes sel_productos : List String) :
    List Record :=
  let d1 := if sel_paises.isEmpty then df
            else df.filter (fun r => isinOpt r.pais sel_paises)
  let d2 := if sel_clientes.isEmpty then d1
            else d1.filter (fun r => isinOpt r.cliente sel_clientes)
  if sel_productos.isEmpty then d2
  else d2.filter (fun r => isinOpt r.producto sel_productos)

/-- The `(Año, Mes)` group key of a row, `none` when FECHA is NaT (pandas
`groupby` drops such rows: `dropna=True` by default). -/
def claveMesAnio (r : Record) : Option (Int × Nat) :=
  r.fecha.map (fun d => (d.year, d.month))

/-- One row of `ventas_mensuales_agrupadas` (lines 105–117): a
`(Año, Mes)` group, its summed `TOTAL VENDIDO`, and the synthesized
`Fecha_Mes` (first day of the month). -/
structure MonthlyPoint where
  anio : Int
  mes : Nat
  ventas : ℚ
  fecha_mes : Fecha
deriving DecidableEq, Repr

/-- Lines 105–117 (Monthly Aggregator):
`df_filtrado.groupby(['Año','Mes'])['TOTAL VENDIDO'].sum()`, one output
row per distinct non-null key, plus the `Fecha_Mes` column. -/
def ventas_mensuales_agrupadas (df : List Record) : List MonthlyPoint :=
  (df.filterMap claveMesAnio).dedup.map fun k =>
    { anio := k.1
      mes := k.2
      ventas := ((df.filter (fun r => claveMesAnio r == some k)).map Record.total).sum
      fecha_mes := { year := k.1, month := k.2, day := 1 } }

/-- The aggregated rows that fall in calendar month `m` — the group that
`groupby('Mes')` forms from `ventas_mensuales_agrupadas` for that month
(one row per year having data for `m`). -/
def filas_mes (df : List Record) (m : Nat) : List MonthlyPoint :=
  (ventas_mensuales_agrupadas df).filter (fun p => p.mes == m)

/-- Lines 120–126 (Seasonal Averager) read off at one calendar month:
`groupby('Mes')['Ventas Mensuales'].mean()` over the aggregated rows,
then `reindex(range(1,13)).fillna(0)` — a month with no aggregated rows
gets 0 (`mean()` of an empty group is NaN, replaced by `fillna`). -/
def promedio_mes (df : List Record) (m : Nat) : ℚ :=
  if ((filas_mes df m).map MonthlyPoint.ventas).isEmpty then 0
  else ((filas_mes df m).map MonthlyPoint.ventas).sum
        / (((filas_mes df m).map MonthlyPoint.ventas).length : ℚ)

/-- Lines 120–126: the full reindexed series `promedios_por_mes`, one
entry per calendar month 1..12. -/
def promedios_por_mes (df : List Record) : List (Nat × ℚ) :=
  (List.range' 1 12).map fun m => (m, promedio_mes df m)

/-- Whether the loaded frame contains any null (NaT) date.  This is a
property of the *loaded* frame, decided at lines 34–35: `dt.month` /
`dt.year` of a NaT row is NaN, and since int64 cannot hold NaN, pandas
stores the derived `Año`/`Mes` columns as float64 exactly when some row
has a NaT date.  Every slice (`df_filtrado`, `ventas_mensuales_agrupadas`)
inherits that dtype, whether or not the NaT rows survive filtering. -/
def hayFechaNula (df : List Record) : Bool :=
  df.any fun r => r.fecha.isNone

/-- Line 129: `ultimo_ano = ventas_mensuales_agrupadas['Año'].max()` —
the numeric value of the maximum; `none` models the NaN produced by
`max()` on an empty frame.  Whether the scalar is an int64 or a float64
(e.g. `2023` vs `2023.0`) is not part of this value: it is determined by
`hayFechaNula` of the loaded frame and matters only when the year is
formatted into a string, in `meses_futuros` below. -/
def ultimo_anio (df : List Record) : Option Int :=
  ((ventas_mensuales_agrupadas df).map MonthlyPoint.anio).max?

/-- Lines 130–136: `proximo_ano = ultimo_ano + 1` and
`meses_futuros = pd.date_range(f"{proximo_ano}-01-01", ..., freq='MS')`,
the twelve first-of-month dates of the target year.  The start string
parses only when `proximo_ano` prints as a plain integer:
* if the aggregated frame is empty, `max()` is NaN and the string is
  `"nan-01-01"` — `pd.date_range` raises a `ValueError`;
* if the loaded frame contains any NaT date, the `Año` column is float64,
  `proximo_ano` is e.g. `2024.0` and the string is `"2024.0-01-01"` —
  `pd.date_range` raises a `ValueError` as well, even though the
  aggregation itself is non-empty.
`none` models both aborts (the script stops with an uncaught exception
and renders no output).  `hayNulos` is `hayFechaNula` of the loaded
frame; `df` is the filtered frame the aggregation is computed from. -/
def meses_futuros (hayNulos : Bool) (df : List Record) : Option (List Fecha) :=
  match ultimo_anio df with
  | none => none
  | some y =>
      if hayNulos then none
      else some ((List.range' 1 12).map fun m => { year := y + 1, month := m, day := 1 })

/-- One row of `pronostico_df`: `Fecha_Mes`, `Mes`, `Pronóstico`. -/
structure ForecastPoint where
  fecha_mes : Fecha
  mes : Nat
  pronostico : ℚ
deriving DecidableEq, Repr

/-- Lines 138–142 (Forecast Projector): the forecast table, built from
`meses_futuros` with `Mes = meses_futuros.month` and
`Pronóstico = Mes.map(promedios_por_mes)` (months 1..12 are all present
in the reindexed averages, so the lookup never misses).  `none`
propagates the `pd.date_range` abort of `meses_futuros`: no forecast
output is produced. -/
def pronostico_df (hayNulos : Bool) (df : List Record) : Option (List ForecastPoint) :=
  match meses_futuros hayNulos df with
  | none => none
  | some fechas =>
      some (fechas.map fun f =>
        { fecha_mes := f
          mes := f.month
          pronostico := promedio_mes df f.month })

/-- Outcome of one script run (streamlit reruns the script top to bottom
per interaction). -/
inductive RunResult where
  /-- Line 29–31: the loaded frame is empty; `st.error` + `st.stop()`. -/
  | emptySource : RunResult
  /-- Lines 100–102: the filtered frame is empty; `st.warning` +
  `st.stop()` — nothing downstream is computed. -/
  | sinDatos : RunResult
  /-- Line 132: `pd.date_range` raises on the malformed start string
  (`"nan-01-01"` for an empty aggregation, `"YYYY.0-01-01"` for a
  float64 year column); the script aborts with an uncaught `ValueError`
  and renders no output. -/
  | fechaInvalida : RunResult
  /-- Normal completion: the aggregated series, the per-month averages
  and the forecast table. -/
  | ok : List MonthlyPoint → List (Nat × ℚ) → List ForecastPoint → RunResult
deriving DecidableEq, Repr

/-- The whole pipeline of the script for one interaction, given the
loaded dataframe and the three selections. -/
def run (df : List Record) (sel_paises sel_clientes sel_productos : List String) :
    RunResult :=
  if df.isEmpty then .emptySource
  else if (df_filtrado df sel_paises sel_clientes sel_productos).isEmpty then .sinDatos
  else
    match pronostico_df (hayFechaNula df)
        (df_filtrado df sel_paises sel_clientes sel_productos) with
    | none => .fechaInvalida
    | some pron =>
        .ok (ventas_mensuales_agrupadas (df_filtrado df sel_paises sel_clientes sel_productos))
          (promedios_por_mes (df_filtrado df sel_paises sel_clientes sel_productos))
          pron

/-! ### Helper lemmas about `sortedUnique` -/

theorem sortedUnique_sorted (l : List (Option String)) :
    List.Sorted (· ≤ ·) (sortedUnique l) :=
  List.sorted_insertionSort _ _

theorem sortedUnique_nodup (l : List (Option String)) : (sortedUnique l).Nodup :=
  (List.perm_insertionSort _ _).nodup_iff.mpr (List.nodup_dedup _)

theorem mem_sortedUnique {v : String} {l : List (Option String)} :
    v ∈ sortedUnique l ↔ some v ∈ l := by
  unfold sortedUnique
  rw [(List.perm_insertionSort _ _).mem_iff, List.mem_dedup, List.mem_filterMap]
  constructor
  · rintro ⟨a, ha, rfl⟩
    exact ha
  · intro h
    exact ⟨some v, h, rfl⟩

theorem mem_sortedUnique_map {v : String} {l : List Record} {f : Record → Option String} :
    v ∈ sortedUnique (l.map f) ↔ ∃ r ∈ l, f r = some v := by
  rw [mem_sortedUnique, List.mem_map]

/-! ### Helper lemmas about the aggregation -/

/-- Summed `TOTAL VENDIDO` of the filtered rows carrying group key `k`. -/
def sumClave (df : List Record) (k : Int × Nat) : ℚ :=
  ((df.filter (fun r => claveMesAnio r == some k)).map Record.total).sum

theorem sum_map_ite_of_not_mem {k0 : Int × Nat} {ks : List (Int × Nat)}
    (h : k0 ∉ ks) (c : ℚ) :
    (ks.map fun k => if k0 = k then c else 0).sum = 0 := by
  induction ks with
  | nil => rfl
  | cons a t ih =>
      simp only [List.mem_cons, not_or] at h
      simp [if_neg h.1, ih h.2]

theorem sum_map_ite_of_mem {k0 : Int × Nat} {ks : List (Int × Nat)}
    (hnd : ks.Nodup) (hk : k0 ∈ ks) (c : ℚ) :
    (ks.map fun k => if k0 = k then c else 0).sum = c := by
  induction ks with
  | nil => cases hk
  | cons a t ih =>
      obtain ⟨ha, hnd'⟩ := List.nodup_cons.mp hnd
      rcases List.mem_cons.mp hk with h | h
      · subst h
        simp [sum_map_ite_of_not_mem ha c]
      · have hne : k0 ≠ a := fun e => ha (e ▸ h)
        simp [if_neg hne, ih hnd' h]

/-- The per-key sums over any duplicate-free key list covering every
valid key of `l` add up to the total of the valid-dated rows of `l`. -/
theorem sum_sumClave (ks : List (Int × Nat)) (l : List Record)
    (hnd : ks.Nodup)
    (hcov : ∀ r ∈ l, ∀ k, claveMesAnio r = some k → k ∈ ks) :
    (ks.map fun k => sumClave l k).sum
      = ((l.filter fun r => (claveMesAnio r).isSome).map Record.total).sum := by
  induction l with
  | nil => simp [sumClave]
  | cons r t ih =>
      have hcov' : ∀ r' ∈ t, ∀ k, claveMesAnio r' = some k → k ∈ ks :=
        fun r' h => hcov r' (List.mem_cons_of_mem _ h)
      have step : ∀ k : Int × Nat,
          sumClave (r :: t) k
            = (if claveMesAnio r = some k then r.total else 0) + sumClave t k := by
        intro k
        by_cases h : claveMesAnio r = some k
        · simp [sumClave, List.filter_cons, h]
        · simp [sumClave, List.filter_cons, h]
      have split :
          (ks.map fun k => sumClave (r :: t) k).sum
            = (ks.map fun k => if claveMesAnio r = some k then r.total else 0).sum
              + (ks.map fun k => sumClave t k).sum := by
        rw [← List.sum_map_add]
        simp only [step]
      rw [split, ih hcov']
      rcases hr : claveMesAnio r with _ | k0
      · simp [List.filter_cons, hr]
      · have hmem : k0 ∈ ks := hcov r (List.mem_cons_self r t) k0 hr
        have hone :
            (ks.map fun k => if some k0 = some k then r.total else 0).sum
              = r.total := by
          simp only [Option.some.injEq]
          exact sum_map_ite_of_mem hnd hmem r.total
        rw [hone]
        simp [List.filter_cons, hr]

/-- The aggregated output, projected to its `(Año, Mes)` keys, is exactly
the duplicate-free key list the `groupby` was formed over. -/
theorem agg_keys (df : List Record) :
    (ventas_mensuales_agrupadas df).map (fun p => (p.anio, p.mes))
      = (df.filterMap claveMesAnio).dedup := by
  unfold ventas_mensuales_agrupadas
  rw [List.map_map]
  exact List.map_id _

/-- The aggregated output, projected to its `Ventas Mensuales` column, is
the per-key sum over the duplicate-free key list. -/
theorem agg_ventas (df : List Record) :
    (ventas_mensuales_agrupadas df).map MonthlyPoint.ventas
      = (df.filterMap claveMesAnio).dedup.map (fun k => sumClave df k) := by
  unfold ventas_mensuales_agrupadas
  rw [List.map_map]
  rfl

/-- Each filtering stage (skip, or `isin` filter) only discards rows. -/
theorem ite_filter_subset (b : Bool) (p : Record → Bool) (l : List Record) :
    (if b then l else l.filter p) ⊆ l := by
  split
  · exact fun x hx => hx
  · exact List.filter_subset' l

/-- The Filter Applicator returns a subset of the loaded rows. -/
theorem df_filtrado_subset (df : List Record) (sp sc spr : List String) :
    df_filtrado df sp sc spr ⊆ df := by
  intro x hx
  have h3 : df_filtrado df sp sc spr
      ⊆ (if sc.isEmpty then
          (if sp.isEmpty then df else df.filter (fun r => isinOpt r.pais sp))
        else
          (if sp.isEmpty then df else df.filter (fun r => isinOpt r.pais sp)).filter
            (fun r => isinOpt r.cliente sc)) :=
    ite_filter_subset _ _ _
  have h2 : (if sc.isEmpty then
          (if sp.isEmpty then df else df.filter (fun r => isinOpt r.pais sp))
        else
          (if sp.isEmpty then df else df.filter (fun r => isinOpt r.pais sp)).filter
            (fun r => isinOpt r.cliente sc))
      ⊆ (if sp.isEmpty then df else df.filter (fun r => isinOpt r.pais sp)) :=
    ite_filter_subset _ _ _
  have h1 : (if sp.isEmpty then df else df.filter (fun r => isinOpt r.pais sp)) ⊆ df :=
    ite_filter_subset _ _ _
  exact h1 (h2 (h3 hx))

/-- If the loaded frame has no null date, neither has any filtered slice. -/
theorem hayFechaNula_df_filtrado (df : List Record) (sp sc spr : List String)
    (h : hayFechaNula df = false) :
    hayFechaNula (df_filtrado df sp sc spr) = false := by
  unfold hayFechaNula at h ⊢
  rw [List.any_eq_false] at h ⊢
  intro r hr
  exact h r (df_filtrado_subset df sp sc spr hr)

/-- A non-empty record list all of whose dates are valid has a
well-defined latest aggregated year. -/
theorem ultimo_anio_isSome (l : List Record) (hne : l ≠ [])
    (hval : hayFechaNula l = false) : ∃ y, ultimo_anio l = some y := by
  obtain ⟨r, t, rfl⟩ := List.exists_cons_of_ne_nil hne
  have h1 : ¬ (r.fecha.isNone = true) := by
    unfold hayFechaNula at hval
    rw [List.any_eq_false] at hval
    exact hval r (List.mem_cons_self r t)
  rcases hf : r.fecha with _ | d
  · rw [hf] at h1
    exact absurd rfl h1
  · have hmem : (d.year, d.month) ∈ ((r :: t).filterMap claveMesAnio).dedup := by
      refine List.mem_dedup.mpr (List.mem_filterMap.mpr ⟨r, List.mem_cons_self r t, ?_⟩)
      simp [claveMesAnio, hf]
    have hne2 : ((ventas_mensuales_agrupadas (r :: t)).map MonthlyPoint.anio) ≠ [] := by
      intro he
      rw [List.map_eq_nil_iff] at he
      unfold ventas_mensuales_agrupadas at he
      rw [List.map_eq_nil_iff] at he
      rw [he] at hmem
      cases hmem
    rcases hmax : ((ventas_mensuales_agrupadas (r :: t)).map MonthlyPoint.anio).max?
      with _ | y
    · rw [List.max?_eq_none_iff] at hmax
      exact absurd hmax hne2
    · exact ⟨y, hmax⟩

/-! ### Theorems for the claims -/

/-- C6: applying the Filter Applicator with all three selections empty
returns the full record set unchanged — same records, same order, same
field values. -/
theorem C6_filtros_vacios_identidad (df : List Record) :
    df_filtrado df [] [] [] = df := rfl

/-- C9: the preprocessing step that derives the month and year columns
keeps every original record intact — projecting the derived rows back to
their five semantic fields gives exactly the input list (no record added,
removed or modified), and each cached derived field is exactly the value
computed from the record's own date.  Every later stage is a pure
function of the record list, so no later stage can modify it either. -/
theorem C9_derivacion_preserva_registros (df : List Record) :
    (derivar df).map RecordExt.base = df ∧
    ∀ x ∈ derivar df,
      x.mes = x.base.fecha.map Fecha.month ∧ x.anio = x.base.fecha.map Fecha.year := by
  constructor
  · unfold derivar
    rw [List.map_map]
    exact List.map_id df
  · intro x hx
    simp only [derivar, List.mem_map] at hx
    obtain ⟨r, _, rfl⟩ := hx
    exact ⟨rfl, rfl⟩

/-- C3: the cascade of option lists observes the declared dependency
order — the country list is computed from the full record set and does
not change when the client or product selections change; the client list
depends only on the country selection (it is computed from the rows
passing the country filter, all rows when that selection is empty); the
product list depends on the country and client selections only; and each
of the three lists is sorted, has no duplicates, and contains only values
actually present (non-null) in the records in scope. -/
theorem C3_cascada_dependencias_y_listas (df : List Record)
    (sp sc spr sc' spr' : List String) :
    ((opciones df sp sc spr).1 = todos_paises df ∧
     (opciones df sp sc' spr').1 = (opciones df sp sc spr).1) ∧
    ((opciones df sp sc spr).2.1 = clientes_disponibles df sp ∧
     (opciones df sp sc' spr').2.1 = (opciones df sp sc spr).2.1) ∧
    ((opciones df sp sc spr).2.2 = productos_disponibles df sp sc ∧
     (opciones df sp sc spr').2.2 = (opciones df sp sc spr).2.2) ∧
    (List.Sorted (· ≤ ·) (todos_paises df) ∧ (todos_paises df).Nodup ∧
     ∀ v ∈ todos_paises df, ∃ r ∈ df, r.pais = some v) ∧
    (List.Sorted (· ≤ ·) (clientes_disponibles df sp) ∧
     (clientes_disponibles df sp).Nodup ∧
     ∀ v ∈ clientes_disponibles df sp,
       ∃ r ∈ df_filtrado_pais df sp, r.cliente = some v) ∧
    (List.Sorted (· ≤ ·) (productos_disponibles df sp sc) ∧
     (productos_disponibles df sp sc).Nodup ∧
     ∀ v ∈ productos_disponibles df sp sc,
       ∃ r ∈ df_filtrado_cliente df sp sc, r.producto = some v) := by
  refine ⟨⟨rfl, rfl⟩, ⟨rfl, rfl⟩, ⟨rfl, rfl⟩, ⟨?_, ?_, ?_⟩, ⟨?_, ?_, ?_⟩, ⟨?_, ?_, ?_⟩⟩
  · exact sortedUnique_sorted _
  · exact sortedUnique_nodup _
  · exact fun v hv => mem_sortedUnique_map.mp hv
  · exact sortedUnique_sorted _
  · exact sortedUnique_nodup _
  · exact fun v hv => mem_sortedUnique_map.mp hv
  · exact sortedUnique_sorted _
  · exact sortedUnique_nodup _
  · exact fun v hv => mem_sortedUnique_map.mp hv

/-! ### Concrete example rows, used to instantiate theorems -/

/-- A row whose FECHA cell is null (NaT after `parse_dates`). -/
def rSinFecha : Record :=
  { pais := some "PE", cliente := some "ACME", producto := some "X",
    fecha := none, total := 5 }

/-- A row with a valid date in January 2023. -/
def rEne2023 : Record :=
  { pais := some "PE", cliente := some "ACME", producto := some "X",
    fecha := some { year := 2023, month := 1, day := 15 }, total := 100 }

/-- A row with a null country cell but a valid date. -/
def rPaisNulo : Record :=
  { pais := none, cliente := some "ACME", producto := some "X",
    fecha := some { year := 2024, month := 2, day := 3 }, total := 7 }

/-- A row with a null country cell and a null date cell. -/
def rPaisNuloSinFecha : Record :=
  { pais := none, cliente := some "ACME", producto := some "X",
    fecha := none, total := 7 }

/-- A row with a null date cell whose country "XX" fails the selection
["PE"]. -/
def rExcluidoSinFecha : Record :=
  { pais := some "XX", cliente := some "B", producto := some "Y",
    fecha := none, total := 3 }

/-- C4, counterexample: a single filtered row whose FECHA cell is null.
`groupby(['Año','Mes'])` silently drops it (NaN key), so the groups sum
to 0 while the filtered subset's `TOTAL VENDIDO` sums to 5 — the
conservation law over the *entire* filtered subset fails. -/
theorem C4_contraejemplo :
    ¬ ((((ventas_mensuales_agrupadas (df_filtrado [rSinFecha] [] [] [])).map
          MonthlyPoint.ventas).sum
        = ((df_filtrado [rSinFecha] [] [] []).map Record.total).sum) ∧
      ((ventas_mensuales_agrupadas (df_filtrado [rSinFecha] [] [] [])).map
          (fun p => (p.anio, p.mes))).Nodup) := by
  intro h
  have h1 := h.1
  have hA : ventas_mensuales_agrupadas (df_filtrado [rSinFecha] [] [] []) = [] := rfl
  have hF : df_filtrado [rSinFecha] [] [] [] = [rSinFecha] := rfl
  rw [hA, hF] at h1
  norm_num [rSinFecha] at h1

/-- C4 (amended): for every filtered record set, the sum of the Monthly
Aggregator's per-(year, month) totals over all groups equals the sum of
the amount field over the filtered records that carry a valid (non-null)
date, and the groups are unique by (year, month).  (Rows with a null
date are dropped by the `groupby`, so they are missing from the
conservation law — see `C4_contraejemplo`.) -/
theorem C4_conservacion (df : List Record) (sp sc spr : List String) :
    (((ventas_mensuales_agrupadas (df_filtrado df sp sc spr)).map
        MonthlyPoint.ventas).sum
      = (((df_filtrado df sp sc spr).filter
          (fun r => (claveMesAnio r).isSome)).map Record.total).sum) ∧
    ((ventas_mensuales_agrupadas (df_filtrado df sp sc spr)).map
        (fun p => (p.anio, p.mes))).Nodup := by
  constructor
  · rw [agg_ventas]
    apply sum_sumClave _ _ (List.nodup_dedup _)
    intro r hr k hk
    exact List.mem_dedup.mpr (List.mem_filterMap.mpr ⟨r, hr, hk⟩)
  · rw [agg_keys]
    exact List.nodup_dedup _

/-- The column of years observed for month `m`, read off the aggregated
rows: one entry per aggregated row falling in calendar month `m`. -/
theorem filas_mes_anios (df : List Record) (m : Nat) :
    (filas_mes df m).map MonthlyPoint.anio
      = ((df.filterMap claveMesAnio).dedup.filter (fun k => k.2 == m)).map
          Prod.fst := by
  unfold filas_mes ventas_mensuales_agrupadas
  rw [List.filter_map, List.map_map]
  rfl

/-- The years observed for a calendar month among the aggregated rows
are pairwise distinct. -/
theorem filas_mes_anios_nodup (df : List Record) (m : Nat) :
    ((filas_mes df m).map MonthlyPoint.anio).Nodup := by
  rw [filas_mes_anios]
  have ndk : ((df.filterMap claveMesAnio).dedup.filter (fun k => k.2 == m)).Nodup :=
    (List.nodup_dedup _).filter _
  refine ndk.map_on ?_
  intro x hx y hy hxy
  have hx2 : x.2 = m := by simpa using (List.mem_filter.mp hx).2
  have hy2 : y.2 = m := by simpa using (List.mem_filter.mp hy).2
  obtain ⟨xa, xb⟩ := x
  obtain ⟨ya, yb⟩ := y
  simp only [Prod.mk.injEq]
  exact ⟨hxy, hx2.trans hy2.symm⟩

/-- C2: for every filtered record set and calendar month `m` in 1..12,
the Seasonal Averager's value for `m` is the sum of the monthly totals
of the distinct years having data for `m`, divided by the count of those
years (the divisor varies per month); it is exactly 0 when no year has
data for `m`; and the averager's output has one entry per month 1..12
with no gaps. -/
theorem C2_promedio_estacional (df : List Record) (sp sc spr : List String)
    (m : Nat) (h1 : 1 ≤ m) (h2 : m ≤ 12) :
    ((filas_mes (df_filtrado df sp sc spr) m).map MonthlyPoint.anio).Nodup ∧
    (filas_mes (df_filtrado df sp sc spr) m ≠ [] →
      promedio_mes (df_filtrado df sp sc spr) m
        = ((filas_mes (df_filtrado df sp sc spr) m).map MonthlyPoint.ventas).sum
          / ((((filas_mes (df_filtrado df sp sc spr) m).map
                MonthlyPoint.anio).dedup.length : ℚ))) ∧
    (filas_mes (df_filtrado df sp sc spr) m = [] →
      promedio_mes (df_filtrado df sp sc spr) m = 0) ∧
    (promedios_por_mes (df_filtrado df sp sc spr)).map Prod.fst
      = List.range' 1 12 ∧
    (m, promedio_mes (df_filtrado df sp sc spr) m)
      ∈ promedios_por_mes (df_filtrado df sp sc spr) := by
  have ndp := filas_mes_anios_nodup (df_filtrado df sp sc spr) m
  refine ⟨ndp, ?_, ?_, ?_, ?_⟩
  · intro hne
    have hvs : ((filas_mes (df_filtrado df sp sc spr) m).map
        MonthlyPoint.ventas).isEmpty = false := by
      simp [hne]
    rw [List.dedup_eq_self.mpr ndp]
    simp only [promedio_mes, hvs, Bool.false_eq_true, if_false, List.length_map]
  · intro hemp
    simp [promedio_mes, hemp]
  · unfold promedios_por_mes
    rw [List.map_map]
    exact List.map_id _
  · refine List.mem_map.mpr ⟨m, ?_, rfl⟩
    rw [List.mem_range'_1]
    omega

/-- Witness for C2 at a concrete input: one filtered row in January
2023, queried at month 1. -/
theorem C2_promedio_estacional_witness :
    (1 ≤ 1 ∧ 1 ≤ 12) ∧
    (((filas_mes (df_filtrado [rEne2023] [] [] []) 1).map MonthlyPoint.anio).Nodup ∧
    (filas_mes (df_filtrado [rEne2023] [] [] []) 1 ≠ [] →
      promedio_mes (df_filtrado [rEne2023] [] [] []) 1
        = ((filas_mes (df_filtrado [rEne2023] [] [] []) 1).map MonthlyPoint.ventas).sum
          / ((((filas_mes (df_filtrado [rEne2023] [] [] []) 1).map
                MonthlyPoint.anio).dedup.length : ℚ))) ∧
    (filas_mes (df_filtrado [rEne2023] [] [] []) 1 = [] →
      promedio_mes (df_filtrado [rEne2023] [] [] []) 1 = 0) ∧
    (promedios_por_mes (df_filtrado [rEne2023] [] [] [])).map Prod.fst
      = List.range' 1 12 ∧
    (1, promedio_mes (df_filtrado [rEne2023] [] [] []) 1)
      ∈ promedios_por_mes (df_filtrado [rEne2023] [] [] [])) :=
  ⟨⟨le_refl 1, by omega⟩,
    C2_promedio_estacional [rEne2023] [] [] [] 1 (le_refl 1) (by omega)⟩

/-- Filtering distributes over the empty record set. -/
theorem df_filtrado_nil (sp sc spr : List String) : df_filtrado [] sp sc spr = [] := by
  simp [df_filtrado]

/-- Filtering distributes over appended record sets. -/
theorem df_filtrado_append (a b : List Record) (sp sc spr : List String) :
    df_filtrado (a ++ b) sp sc spr
      = df_filtrado a sp sc spr ++ df_filtrado b sp sc spr := by
  by_cases hsp : sp.isEmpty <;> by_cases hsc : sc.isEmpty <;> by_cases hspr : spr.isEmpty <;>
    simp [df_filtrado, hsp, hsc, hspr, List.filter_append]

/-- A single record failing some non-empty dimension of the selection is
removed by the Filter Applicator. -/
theorem df_filtrado_singleton_excluido (r : Record) (sp sc spr : List String)
    (h : (sp ≠ [] ∧ isinOpt r.pais sp = false)
        ∨ (sc ≠ [] ∧ isinOpt r.cliente sc = false)
        ∨ (spr ≠ [] ∧ isinOpt r.producto spr = false)) :
    df_filtrado [r] sp sc spr = [] := by
  rcases h with ⟨hne, hf⟩ | ⟨hne, hf⟩ | ⟨hne, hf⟩
  · have hb : sp.isEmpty = false := by simp [hne]
    simp [df_filtrado, hb, hf, List.filter_cons]
  · have hb : sc.isEmpty = false := by simp [hne]
    by_cases hsp : sp.isEmpty <;> by_cases hp1 : isinOpt r.pais sp <;>
      simp [df_filtrado, hb, hf, hsp, hp1, List.filter_cons]
  · have hb : spr.isEmpty = false := by simp [hne]
    by_cases hsp : sp.isEmpty <;> by_cases hp1 : isinOpt r.pais sp <;>
      by_cases hsc : sc.isEmpty <;> by_cases hp2 : isinOpt r.cliente sc <;>
        simp [df_filtrado, hb, hf, hsp, hp1, hsc, hp2, List.filter_cons]

/-- C1, counterexample: a loaded frame with one valid January-2023 row
and one row whose FECHA cell is null (NaT), no selections.  The filtered
set is non-empty and its monthly aggregation is even non-empty, yet the
projector emits no forecast points at all: the NaT row makes the derived
`Año` column float64, `max()` is `2023.0`, and
`pd.date_range("2024.0-01-01", ...)` raises — so "every non-empty
filtered record set yields exactly 12 points" is false as stated.  (A
frame of NaT rows alone fails too, through the `"nan-01-01"` string.) -/
theorem C1_contraejemplo :
    df_filtrado [rEne2023, rSinFecha] [] [] [] ≠ [] ∧
    ¬ ∃ pts : List ForecastPoint,
        pronostico_df (hayFechaNula [rEne2023, rSinFecha])
          (df_filtrado [rEne2023, rSinFecha] [] [] []) = some pts := by
  constructor
  · have hF : df_filtrado [rEne2023, rSinFecha] [] [] [] = [rEne2023, rSinFecha] := rfl
    rw [hF]
    exact List.cons_ne_nil _ _
  · rintro ⟨pts, hpts⟩
    have hnone : pronostico_df (hayFechaNula [rEne2023, rSinFecha])
        (df_filtrado [rEne2023, rSinFecha] [] [] []) = none := rfl
    rw [hnone] at hpts
    cases hpts

/-- C1 (amended): for every non-empty filtered record set drawn from a
loaded record set containing no null dates (so the derived year column
is integral and the latest observed year `y` exists), the Forecast
Projector emits exactly 12 forecast points, one per calendar month 1..12
of the target year `y + 1`, dated the first calendar day of each month in
strictly increasing order, each point's value being exactly the Seasonal
Averager's value for its calendar month (a month with a 0 average yields
a 0-valued point, never an omitted point). -/
theorem C1_pronostico_doce_puntos (df : List Record) (sp sc spr : List String)
    (hne : df_filtrado df sp sc spr ≠ [])
    (hnulos : hayFechaNula df = false) :
    ∃ y : Int, ultimo_anio (df_filtrado df sp sc spr) = some y ∧
    ∃ pts : List ForecastPoint,
      pronostico_df (hayFechaNula df) (df_filtrado df sp sc spr) = some pts ∧
      pts.length = 12 ∧
      pts.map ForecastPoint.mes = List.range' 1 12 ∧
      pts.map ForecastPoint.fecha_mes
        = (List.range' 1 12).map (fun m => { year := y + 1, month := m, day := 1 }) ∧
      pts.Pairwise (fun a b => Fecha.before a.fecha_mes b.fecha_mes = true) ∧
      ∀ pt ∈ pts,
        pt.pronostico = promedio_mes (df_filtrado df sp sc spr) pt.mes := by
  obtain ⟨y, hy⟩ := ultimo_anio_isSome (df_filtrado df sp sc spr) hne
    (hayFechaNula_df_filtrado df sp sc spr hnulos)
  refine ⟨y, hy, ?_⟩
  have hm : meses_futuros (hayFechaNula df) (df_filtrado df sp sc spr)
      = some ((List.range' 1 12).map fun m =>
          ({ year := y + 1, month := m, day := 1 } : Fecha)) := by
    unfold meses_futuros
    rw [hy, hnulos]
    rfl
  have hp : pronostico_df (hayFechaNula df) (df_filtrado df sp sc spr)
      = some (((List.range' 1 12).map fun m =>
            ({ year := y + 1, month := m, day := 1 } : Fecha)).map fun f =>
          { fecha_mes := f
            mes := f.month
            pronostico := promedio_mes (df_filtrado df sp sc spr) f.month }) := by
    unfold pronostico_df
    rw [hm]
  rw [List.map_map] at hp
  refine ⟨_, hp, ?_, ?_, ?_, ?_, ?_⟩
  · simp
  · rw [List.map_map]
    exact List.map_id _
  · rw [List.map_map]
    rfl
  · rw [List.pairwise_map]
    have hlt : List.Pairwise (· < ·) (List.range' 1 12) := by decide
    refine hlt.imp ?_
    intro a b hab
    simp [Fecha.before, Function.comp, hab]
  · intro pt hpt
    rw [List.mem_map] at hpt
    obtain ⟨m, _, rfl⟩ := hpt
    rfl

/-- Witness for C1 (amended) at a concrete input: one loaded and
filtered row dated January 2023 and no null dates, so the target year is
2024. -/
theorem C1_pronostico_doce_puntos_witness :
    (df_filtrado [rEne2023] [] [] [] ≠ [] ∧ hayFechaNula [rEne2023] = false) ∧
    (∃ y : Int, ultimo_anio (df_filtrado [rEne2023] [] [] []) = some y ∧
    ∃ pts : List ForecastPoint,
      pronostico_df (hayFechaNula [rEne2023]) (df_filtrado [rEne2023] [] [] [])
        = some pts ∧
      pts.length = 12 ∧
      pts.map ForecastPoint.mes = List.range' 1 12 ∧
      pts.map ForecastPoint.fecha_mes
        = (List.range' 1 12).map (fun m => { year := y + 1, month := m, day := 1 }) ∧
      pts.Pairwise (fun a b => Fecha.before a.fecha_mes b.fecha_mes = true) ∧
      ∀ pt ∈ pts,
        pt.pronostico = promedio_mes (df_filtrado [rEne2023] [] [] []) pt.mes) := by
  have hne : df_filtrado [rEne2023] [] [] [] ≠ [] := by
    have hF : df_filtrado [rEne2023] [] [] [] = [rEne2023] := rfl
    rw [hF]
    exact List.cons_ne_nil _ _
  exact ⟨⟨hne, rfl⟩, C1_pronostico_doce_puntos [rEne2023] [] [] [] hne rfl⟩

/-- C5: whenever the loaded record set is non-empty but the Filter
Applicator's output has zero rows, the script run halts at the
`df_filtrado.empty` check with the "no data" warning (`st.warning` +
`st.stop()`): no Monthly Aggregator, Seasonal Averager or Forecast
Projector output is produced, and the run does not crash. -/
theorem C5_filtro_vacio_detiene (df : List Record) (sp sc spr : List String)
    (hdf : df ≠ []) (hF : df_filtrado df sp sc spr = []) :
    run df sp sc spr = RunResult.sinDatos := by
  have h1 : df.isEmpty = false := by simp [hdf]
  have h2 : (df_filtrado df sp sc spr).isEmpty = true := by simp [hF]
  simp [run, h1, h2]

/-- Witness for C5 at a concrete input: one row, with a country
selection matching no row. -/
theorem C5_filtro_vacio_detiene_witness :
    (([rEne2023] : List Record) ≠ [] ∧ df_filtrado [rEne2023] ["XX"] [] [] = []) ∧
    run [rEne2023] ["XX"] [] [] = RunResult.sinDatos :=
  ⟨⟨List.cons_ne_nil _ _, rfl⟩,
    C5_filtro_vacio_detiene [rEne2023] ["XX"] [] [] (List.cons_ne_nil _ _) rfl⟩

/-- C7: a non-empty filtered record set in which every row's date is
null produces an empty aggregated frame; `max()` of its `Año` column is
NaN and `pd.date_range` raises a `ValueError` on the NaN year, so the
Forecast Projector produces a defined failure (`none`, the modelled
abort) and never any forecast points, and the whole run ends in that
failure state. -/
theorem C7_sin_fechas_validas_rechaza (df : List Record) (sp sc spr : List String)
    (hne : df_filtrado df sp sc spr ≠ [])
    (hdates : ∀ r ∈ df_filtrado df sp sc spr, r.fecha = none) :
    pronostico_df (hayFechaNula df) (df_filtrado df sp sc spr) = none ∧
    run df sp sc spr = RunResult.fechaInvalida := by
  have hagg : (df_filtrado df sp sc spr).filterMap claveMesAnio = [] := by
    rw [List.filterMap_eq_nil_iff]
    intro r hr
    simp [claveMesAnio, hdates r hr]
  have hagg2 : ventas_mensuales_agrupadas (df_filtrado df sp sc spr) = [] := by
    unfold ventas_mensuales_agrupadas
    rw [hagg]
    rfl
  have hua : ultimo_anio (df_filtrado df sp sc spr) = none := by
    unfold ultimo_anio
    rw [hagg2]
    rfl
  have hpron : pronostico_df (hayFechaNula df) (df_filtrado df sp sc spr) = none := by
    unfold pronostico_df meses_futuros
    rw [hua]
  refine ⟨hpron, ?_⟩
  have hdf : df ≠ [] := by
    intro e
    exact hne (by rw [e, df_filtrado_nil])
  have h1 : df.isEmpty = false := by simp [hdf]
  have h2 : (df_filtrado df sp sc spr).isEmpty = false := by simp [hne]
  simp [run, h1, h2, hpron]

/-- Witness for C7 at a concrete input: one filtered row whose date
cell is null. -/
theorem C7_sin_fechas_validas_rechaza_witness :
    (df_filtrado [rSinFecha] [] [] [] ≠ [] ∧
      ∀ r ∈ df_filtrado [rSinFecha] [] [] [], r.fecha = none) ∧
    (pronostico_df (hayFechaNula [rSinFecha]) (df_filtrado [rSinFecha] [] [] []) = none ∧
      run [rSinFecha] [] [] [] = RunResult.fechaInvalida) := by
  have hne : df_filtrado [rSinFecha] [] [] [] ≠ [] := by
    have hF : df_filtrado [rSinFecha] [] [] [] = [rSinFecha] := rfl
    rw [hF]
    exact List.cons_ne_nil _ _
  have hdates : ∀ r ∈ df_filtrado [rSinFecha] [] [] [], r.fecha = none := by
    have hF : df_filtrado [rSinFecha] [] [] [] = [rSinFecha] := rfl
    rw [hF]
    intro r hr
    rw [List.mem_singleton.mp hr]
    rfl
  exact ⟨⟨hne, hdates⟩, C7_sin_fechas_validas_rechaza [rSinFecha] [] [] [] hne hdates⟩

/-- C8, counterexample: a row with a null country cell *and* a null date
cell.  With all selections empty it passes the Filter Applicator, but
the aggregated output is empty — its amount is included in no
Monthly-Aggregator sum — so "the amount is still included in the sums
whenever the record satisfies all non-empty selections" is false as
stated. -/
theorem C8_contraejemplo :
    rPaisNuloSinFecha.pais = none ∧
    rPaisNuloSinFecha ∈ df_filtrado [rPaisNuloSinFecha] [] [] [] ∧
    ventas_mensuales_agrupadas (df_filtrado [rPaisNuloSinFecha] [] [] []) = [] := by
  refine ⟨rfl, ?_, rfl⟩
  have hF : df_filtrado [rPaisNuloSinFecha] [] [] [] = [rPaisNuloSinFecha] := rfl
  rw [hF]
  exact List.mem_singleton_self _

/-- C8 (amended): a null categorical value never appears in any of the
three option lists (every listed value is witnessed by a non-null cell
of a record in scope), yet a record with a null country/client/product
cell that satisfies all non-empty selections still has its amount
included in the Monthly Aggregator's sums, provided its date is valid:
its (year, month) group exists in the aggregated output, that group's
total is the sum over the filtered rows with that key, and the record is
among those rows. -/
theorem C8_nulos_opciones_vs_sumas (df : List Record) (sp sc spr : List String)
    (r : Record) (_hr : r ∈ df)
    (_hnull : r.pais = none ∨ r.cliente = none ∨ r.producto = none) :
    (∀ v ∈ todos_paises df, ∃ rr ∈ df, rr.pais = some v) ∧
    (∀ v ∈ clientes_disponibles df sp,
      ∃ rr ∈ df_filtrado_pais df sp, rr.cliente = some v) ∧
    (∀ v ∈ productos_disponibles df sp sc,
      ∃ rr ∈ df_filtrado_cliente df sp sc, rr.producto = some v) ∧
    (r ∈ df_filtrado df sp sc spr → ∀ d : Fecha, r.fecha = some d →
      ∃ p ∈ ventas_mensuales_agrupadas (df_filtrado df sp sc spr),
        p.anio = d.year ∧ p.mes = d.month ∧
        p.ventas = sumClave (df_filtrado df sp sc spr) (d.year, d.month) ∧
        r ∈ (df_filtrado df sp sc spr).filter
          (fun rr => claveMesAnio rr == some (d.year, d.month))) := by
  refine ⟨fun v hv => mem_sortedUnique_map.mp hv,
          fun v hv => mem_sortedUnique_map.mp hv,
          fun v hv => mem_sortedUnique_map.mp hv, ?_⟩
  intro hrF d hd
  have hclave : claveMesAnio r = some (d.year, d.month) := by
    simp [claveMesAnio, hd]
  have hk : (d.year, d.month)
      ∈ ((df_filtrado df sp sc spr).filterMap claveMesAnio).dedup :=
    List.mem_dedup.mpr (List.mem_filterMap.mpr ⟨r, hrF, hclave⟩)
  refine ⟨_, List.mem_map.mpr ⟨(d.year, d.month), hk, rfl⟩, rfl, rfl, rfl, ?_⟩
  refine List.mem_filter.mpr ⟨hrF, ?_⟩
  rw [hclave]
  simp

/-- Witness for C8 (amended) at a concrete input: a row with a null
country cell and a valid date in February 2024, no selections. -/
theorem C8_nulos_opciones_vs_sumas_witness :
    (rPaisNulo ∈ ([rPaisNulo] : List Record) ∧
      (rPaisNulo.pais = none ∨ rPaisNulo.cliente = none ∨ rPaisNulo.producto = none)) ∧
    ((∀ v ∈ todos_paises [rPaisNulo], ∃ rr ∈ ([rPaisNulo] : List Record), rr.pais = some v) ∧
    (∀ v ∈ clientes_disponibles [rPaisNulo] [],
      ∃ rr ∈ df_filtrado_pais [rPaisNulo] [], rr.cliente = some v) ∧
    (∀ v ∈ productos_disponibles [rPaisNulo] [] [],
      ∃ rr ∈ df_filtrado_cliente [rPaisNulo] [] [], rr.producto = some v) ∧
    (rPaisNulo ∈ df_filtrado [rPaisNulo] [] [] [] → ∀ d : Fecha, rPaisNulo.fecha = some d →
      ∃ p ∈ ventas_mensuales_agrupadas (df_filtrado [rPaisNulo] [] [] []),
        p.anio = d.year ∧ p.mes = d.month ∧
        p.ventas = sumClave (df_filtrado [rPaisNulo] [] [] []) (d.year, d.month) ∧
        rPaisNulo ∈ (df_filtrado [rPaisNulo] [] [] []).filter
          (fun rr => claveMesAnio rr == some (d.year, d.month)))) :=
  ⟨⟨List.mem_singleton_self _, Or.inl rfl⟩,
    C8_nulos_opciones_vs_sumas [rPaisNulo] [] [] [] rPaisNulo
      (List.mem_singleton_self _) (Or.inl rfl)⟩

/-- C10, counterexample: loaded frame = one valid January-2023 row,
country selection ["PE"], and an added record whose country "XX" fails
that non-empty dimension but whose FECHA cell is null.  The Filter
Applicator's output is identical (the record is excluded), yet the
Forecast Projector's outputs differ: the original run emits 12 points,
while the extended run's NaT row turns the pre-filter `Año` column
float64, so `pd.date_range("2024.0-01-01", ...)` raises and no points
are emitted — the excluded record influences downstream output through
the dtype of the derived year column. -/
theorem C10_contraejemplo :
    ((["PE"] : List String) ≠ [] ∧ isinOpt rExcluidoSinFecha.pais ["PE"] = false) ∧
    df_filtrado ([rEne2023] ++ [rExcluidoSinFecha]) ["PE"] [] []
      = df_filtrado [rEne2023] ["PE"] [] [] ∧
    pronostico_df (hayFechaNula ([rEne2023] ++ [rExcluidoSinFecha]))
        (df_filtrado ([rEne2023] ++ [rExcluidoSinFecha]) ["PE"] [] [])
      ≠ pronostico_df (hayFechaNula [rEne2023])
          (df_filtrado [rEne2023] ["PE"] [] []) := by
  refine ⟨⟨List.cons_ne_nil _ _, rfl⟩, rfl, ?_⟩
  intro h
  have hL : pronostico_df (hayFechaNula ([rEne2023] ++ [rExcluidoSinFecha]))
      (df_filtrado ([rEne2023] ++ [rExcluidoSinFecha]) ["PE"] [] []) = none := rfl
  rw [hL] at h
  obtain ⟨pts, hpts⟩ : ∃ pts, pronostico_df (hayFechaNula [rEne2023])
      (df_filtrado [rEne2023] ["PE"] [] []) = some pts := ⟨_, rfl⟩
  rw [hpts] at h
  cases h

/-- C10 (amended): extending the record set with a record that fails at
least one non-empty dimension of the selection leaves the Filter
Applicator's output identical, hence the Monthly Aggregator and Seasonal
Averager outputs identical; and provided the added record carries a
valid (non-null) date — so the derived year column's dtype is unchanged
— the Forecast Projector output is identical too.  (An excluded record
with a null date can still change the projector's outcome through the
float64 dtype of the pre-filter `Año` column — see
`C10_contraejemplo`.) -/
theorem C10_registro_excluido_sin_influencia (df : List Record)
    (sp sc spr : List String) (r : Record)
    (h : (sp ≠ [] ∧ isinOpt r.pais sp = false)
        ∨ (sc ≠ [] ∧ isinOpt r.cliente sc = false)
        ∨ (spr ≠ [] ∧ isinOpt r.producto spr = false)) :
    df_filtrado (df ++ [r]) sp sc spr = df_filtrado df sp sc spr ∧
    ventas_mensuales_agrupadas (df_filtrado (df ++ [r]) sp sc spr)
      = ventas_mensuales_agrupadas (df_filtrado df sp sc spr) ∧
    promedios_por_mes (df_filtrado (df ++ [r]) sp sc spr)
      = promedios_por_mes (df_filtrado df sp sc spr) ∧
    (r.fecha ≠ none →
      pronostico_df (hayFechaNula (df ++ [r])) (df_filtrado (df ++ [r]) sp sc spr)
        = pronostico_df (hayFechaNula df) (df_filtrado df sp sc spr)) := by
  have hF : df_filtrado (df ++ [r]) sp sc spr = df_filtrado df sp sc spr := by
    rw [df_filtrado_append, df_filtrado_singleton_excluido r sp sc spr h,
      List.append_nil]
  refine ⟨hF, by rw [hF], by rw [hF], ?_⟩
  intro hfec
  have hisNone : r.fecha.isNone = false := by
    rcases hfe : r.fecha with _ | d
    · exact absurd hfe hfec
    · rfl
  have hnn : hayFechaNula (df ++ [r]) = hayFechaNula df := by
    simp [hayFechaNula, List.any_append, hisNone]
  rw [hF, hnn]

/-- Witness for C10 (amended) at a concrete input: a valid-dated record
whose country "PE" fails the selection ["XX"]. -/
theorem C10_registro_excluido_sin_influencia_witness :
    ((["XX"] ≠ ([] : List String) ∧ isinOpt rEne2023.pais ["XX"] = false)
      ∨ (([] : List String) ≠ [] ∧ isinOpt rEne2023.cliente [] = false)
      ∨ (([] : List String) ≠ [] ∧ isinOpt rEne2023.producto [] = false)) ∧
    (df_filtrado ([rEne2023] ++ [rEne2023]) ["XX"] [] []
        = df_filtrado [rEne2023] ["XX"] [] [] ∧
    ventas_mensuales_agrupadas (df_filtrado ([rEne2023] ++ [rEne2023]) ["XX"] [] [])
      = ventas_mensuales_agrupadas (df_filtrado [rEne2023] ["XX"] [] []) ∧
    promedios_por_mes (df_filtrado ([rEne2023] ++ [rEne2023]) ["XX"] [] [])
      = promedios_por_mes (df_filtrado [rEne2023] ["XX"] [] []) ∧
    (rEne2023.fecha ≠ none →
      pronostico_df (hayFechaNula ([rEne2023] ++ [rEne2023]))
          (df_filtrado ([rEne2023] ++ [rEne2023]) ["XX"] [] [])
        = pronostico_df (hayFechaNula [rEne2023])
            (df_filtrado [rEne2023] ["XX"] [] []))) :=
  ⟨Or.inl ⟨List.cons_ne_nil _ _, rfl⟩,
    C10_registro_excluido_sin_influencia [rEne2023] ["XX"] [] [] rEne2023
      (Or.inl ⟨List.cons_ne_nil _ _, rfl⟩)⟩

end Pronostico2026
